import Mathlib

/-!
# Chart construction of `src/initChart.js`

A shallow embedding of the chart builder: the axis orientations
(`rotateAxis`, `axisVector`), the tick geometry (`createAxisGeometry`) and
the scene built by `initChart` (two axis lines and one disc per data pair).

The program computes with JavaScript numbers; the embedding is generic in
the number type `α` and the statements are proved for `α = ℝ`, i.e. in exact
real arithmetic.  Where exactness itself is in question the rotations are also
given on JavaScript numbers, with binary64 arithmetic modelled bit for bit.
The two libraries the program calls (three.js and d3-scale) are not part of the
repository; the few functions of theirs that are needed are modelled from the
specification and marked as such.
-/

namespace InitChart

/-! ## Numbers -/

/-- The functions of the JavaScript `Math` object that the program and the
modelled library functions use. -/
class MathFns (α : Type) where
  /-- The constant `Math.PI`. -/
  PI : α
  /-- The function `Math.sin`. -/
  sin : α → α
  /-- The function `Math.cos`. -/
  cos : α → α
  /-- Logarithm of the second argument in the base given first. -/
  logb : α → α → α
  /-- The function `Math.pow`. -/
  pow : α → α → α

/-- Exact real arithmetic. -/
noncomputable instance : MathFns ℝ where
  PI := Real.pi
  sin := Real.sin
  cos := Real.cos
  logb := Real.logb
  pow := fun b e => b ^ e

/-! ## Vectors and geometries (three.js) -/

/-- A `THREE.Vector3`. -/
structure Vector3 (α : Type) where
  x : α
  y : α
  z : α
deriving DecidableEq, Repr

/-- Modelled from the spec: `Vector3.applyAxisAngle(axis, angle)` of three.js,
which is not in the repository.  The spec describes it as the rotation of the
vertex by `angle` about the line through the world origin along `axis`; for a
unit axis `k` that is `v cos θ + (k × v) sin θ + k (k · v) (1 - cos θ)`. -/
def Vector3.applyAxisAngle {α : Type} [Field α] [MathFns α]
    (vec axis : Vector3 α) (angle : α) : Vector3 α :=
  let c := MathFns.cos angle
  let s := MathFns.sin angle
  let d := axis.x * vec.x + axis.y * vec.y + axis.z * vec.z
  { x := vec.x * c + (axis.y * vec.z - axis.z * vec.y) * s + axis.x * d * (1 - c)
    y := vec.y * c + (axis.z * vec.x - axis.x * vec.z) * s + axis.y * d * (1 - c)
    z := vec.z * c + (axis.x * vec.y - axis.y * vec.x) * s + axis.z * d * (1 - c) }

/-- A `THREE.Geometry`, reduced to its vertex sequence. -/
structure Geometry (α : Type) where
  vertices : List (Vector3 α)
deriving DecidableEq, Repr

/-- Modelled from the spec: `Geometry.translate(x, y, z)` of three.js, which
moves the entire geometry by the given offset: every vertex is shifted. -/
def Geometry.translate {α : Type} [Field α] (g : Geometry α) (x y z : α) : Geometry α :=
  { vertices := g.vertices.map (fun v => { x := v.x + x, y := v.y + y, z := v.z + z }) }

/-- What a scene holds: a `THREE.Line` or a `THREE.Mesh`, each with its
geometry (materials carry no position and are left out). -/
inductive Object3D (α : Type) where
  | line (geometry : Geometry α)
  | mesh (geometry : Geometry α)
deriving DecidableEq, Repr

/-- A `THREE.Scene`, reduced to its children in the order they were added. -/
structure Scene (α : Type) where
  children : List (Object3D α)
deriving DecidableEq, Repr

/-- Modelled from the spec: `scene.add(object)` of three.js appends the object
to the scene graph. -/
def Scene.add {α : Type} (scene : Scene α) (object : Object3D α) : Scene α :=
  { children := scene.children ++ [object] }

/-! ## Scales (d3-scale) -/

/-- A configured scale: forward mapping, inverse mapping and tick values. -/
structure Scale (α : Type) where
  forward : α → α
  invert : α → α
  ticks : Int → List α

/-- Modelled from the spec: `scaleLinear().domain([d0, d1]).range([r0, r1])` of
d3-scale: the range position is proportional to the domain value, without
clamping, and `invert` is the inverse mapping.  The tick values are chosen by
the library and are a parameter here. -/
def scaleLinear {α : Type} [Field α] (d0 d1 r0 r1 : α) (ticks : Int → List α) : Scale α :=
  { forward := fun v => r0 + (r1 - r0) * ((v - d0) / (d1 - d0))
    invert := fun r => d0 + (d1 - d0) * ((r - r0) / (r1 - r0))
    ticks := ticks }

/-- Modelled from the spec: `scaleLog().base(b).domain([d0, d1]).range([r0, r1])`
of d3-scale: the range position is proportional to the base-`b` logarithm of the
domain value, without clamping, and `invert` maps a range position back to a
domain value by exponentiation.  The tick values are chosen by the library and
are a parameter here.  The spec leaves a domain of zero width (`d0 = d1`)
undefined; the quotient below is then `0 / 0 = 0`, so that `forward` is
constantly `r0`, which is also what d3-scale 1.x and 2.x return. -/
def scaleLog {α : Type} [Field α] [MathFns α] (base d0 d1 r0 r1 : α)
    (ticks : Int → List α) : Scale α :=
  { forward := fun v =>
      r0 + (r1 - r0) *
        ((MathFns.logb base v - MathFns.logb base d0) /
          (MathFns.logb base d1 - MathFns.logb base d0))
    invert := fun r =>
      MathFns.pow base
        (MathFns.logb base d0 +
          (MathFns.logb base d1 - MathFns.logb base d0) * ((r - r0) / (r1 - r0)))
    ticks := ticks }

/-! ## The program -/

/-- The browser window, read once at load time. -/
structure Window (α : Type) where
  innerHeight : α
  innerWidth : α

/-- Line 5: `window.innerHeight / window.innerWidth`. -/
def RATIO {α : Type} [Field α] (window : Window α) : α :=
  window.innerHeight / window.innerWidth

/-- Line 6. -/
def WIDTH {α : Type} [Field α] : α := 100

/-- Line 7: ` RATIO * 100`. -/
def HEIGHT {α : Type} [Field α] (window : Window α) : α :=
  ( RATIO window) * 100

/-- The keys of `axisType`. -/
def axisType.top : String := "top"
/-- The key `right`. -/
def axisType.right : String := "right"
/-- The key `bottom`. -/
def axisType.bottom : String := "bottom"
/-- The key `left`. -/
def axisType.left : String := "left"

/-- Lines 26-30: the rotation about the axis `(x, y, z)` by `theta`. -/
def rotateAxis {α : Type} [Field α] [MathFns α] (x y z theta : α) :
    Vector3 α → Vector3 α :=
  fun vec => vec.applyAxisAngle { x := x, y := y, z := z } theta

/-- Lines 32-37: the lookup `axisVector[type]`; a key that the object literal
does not define gives `none` (JavaScript `undefined`). -/
def axisVector {α : Type} [Field α] [MathFns α] (type : String) :
    Option (Vector3 α → Vector3 α) :=
  if type = axisType.top then some (rotateAxis 1 0 0 (MathFns.PI / 2))
  else if type = axisType.bottom then some (fun x => x)
  else if type = axisType.right then some (rotateAxis 0 0 1 (-1 * MathFns.PI * 3 / 2))
  else if type = axisType.left then some (rotateAxis 0 0 1 (MathFns.PI / 2))
  else none

/-- The argument object of `createAxisGeometry`. -/
structure AxisSpec (α : Type) where
  type : String
  tickCount : Int
  tickHeight : α
  scale : Scale α

/-- Lines 51-55: the three vertices of one tick. -/
def tickVertices {α : Type} [Field α] (tickHeight value : α) : List (Vector3 α) :=
  [ { x := value, y := 0, z := 1 },
    { x := value, y := tickHeight, z := 1 },
    { x := value, y := 0, z := 1 } ]

/-- Line 57: the call `axisVector[type](vec)`, a `TypeError` when the lookup
gave `undefined`. -/
def applyAxisVector {α : Type} [Field α] [MathFns α] (type : String)
    (vec : Vector3 α) : Except String (Vector3 α) :=
  match axisVector type with
  | some f => .ok (f vec)
  | none => .error "TypeError: axisVector[type] is not a function"

/-- Lines 47-59. -/
def createAxisGeometry {α : Type} [Field α] [MathFns α] (spec : AxisSpec α) :
    Except String (Geometry α) := do
  let ticks := spec.scale.ticks spec.tickCount
  let vertices ←
    ((ticks.map (tickVertices spec.tickHeight)).foldl (fun all more => all ++ more) []).mapM
      (applyAxisVector spec.type)
  pure { vertices := vertices }

/-- Lines 87-90: the Y scale. -/
def yScale {α : Type} [Field α] [MathFns α] (window : Window α)
    (ticks : Int → List α) : Scale α :=
  scaleLog 2 1 (HEIGHT window) 1 300 ticks

/-- Lines 91-93: the X scale. -/
def xScale {α : Type} [Field α] (ticks : Int → List α) : Scale α :=
  scaleLinear 0 100 0 WIDTH ticks

/-- Lines 61-123, the part that builds the scene: the two axis geometries,
the two lines and one mesh per data pair.  The tick functions of the two
scales, the disc `new THREE.CircleGeometry(0.5, 100)` and the contents of
`./data` are parameters. -/
def initChart {α : Type} [Field α] [MathFns α] (window : Window α)
    (xTicks yTicks : Int → List α) (circle : Geometry α) (data : List (α × α)) :
    Except String (Scene α) := do
  let scene : Scene α := { children := [] }
  let yScale := yScale window yTicks
  let xScale := xScale xTicks
  let xAxisGeometry ← createAxisGeometry
    { tickCount := 100, tickHeight := 1, scale := xScale, type := axisType.bottom }
  let yAxisGeometry ← (createAxisGeometry
    { tickCount := 100, tickHeight := 1, scale := yScale, type := axisType.left }).map
      (fun g => g.translate 0 1 0)
  let xLine := Object3D.line xAxisGeometry
  let yLine := Object3D.line yAxisGeometry
  let scene := scene.add yLine
  let scene := scene.add xLine
  let meshes :=
    (data.map (fun p => circle.translate (xScale.forward p.1) (yScale.invert p.2) 0)).map
      (fun geo => Object3D.mesh geo)
  pure (meshes.foldl (fun scene mesh => scene.add mesh) scene)

/-! ## JavaScript numbers

JavaScript numbers are IEEE 754 binary64 values.  The part of that arithmetic
the rotations use is modelled exactly: every operation returns the exact result
rounded to the nearest value with 53 significant bits, ties to even. -/

/-- A JavaScript number.  `finite mant exp` is the value `mant * 2 ^ exp`, kept
with `mant` odd, or `mant = 0` and `exp = 0`, so that equal values are equal
terms; the two zeros of binary64, which compare equal and add alike, are one
value here.  `other` stands for everything outside the modelled part (NaN, the
infinities, results below the normal range, values of `Math.sin` and `Math.cos`
that are not tabulated below); every operation on `other` gives `other`. -/
inductive Double where
  | finite (mant : Int) (exp : Int)
  | other
deriving DecidableEq, Repr

/-- The number of binary digits of a natural number, 0 for 0. -/
def Double.bitLength (n : Nat) : Nat :=
  if n = 0 then 0 else (Nat.toDigits 2 n).length

/-- The value `m * 2 ^ e`, which must fit 53 bits, in the form described at
`Double`: trailing zero bits of `m` move into the exponent; a value outside
the normal range `2 ^ (-1022) ≤ |x| < 2 ^ 1024` is `other`. -/
def Double.normalize (m : Int) (e : Int) : Double :=
  if m = 0 then .finite 0 0
  else
    let n := m.natAbs
    let tz := bitLength (n ^^^ (n - 1)) - 1
    let e1 := e + tz
    let top := e1 + (bitLength (n >>> tz) : Int) - 1
    if top < -1022 ∨ 1023 < top then .other
    else .finite (m.sign * ((n >>> tz : Nat) : Int)) e1

/-- Rounding of the exact value `m * 2 ^ e` to the nearest binary64 value, ties
to even: of a magnitude with more than 53 bits the excess low bits are dropped,
and the rest goes up by one when they are more than half of its last place, or
exactly half with the rest odd. -/
def Double.round (m : Int) (e : Int) : Double :=
  let n := m.natAbs
  let b := bitLength n
  if b ≤ 53 then normalize m e
  else
    let sh := b - 53
    let q := n >>> sh
    let r := n % 2 ^ sh
    let half := 2 ^ (sh - 1)
    let up := half < r ∨ (r = half ∧ q % 2 = 1)
    normalize (m.sign * (((if up then q + 1 else q) : Nat) : Int)) (e + sh)

/-- The sum `a + b`: the exact sum, rounded. -/
def Double.add : Double → Double → Double
  | .finite m1 e1, .finite m2 e2 =>
    let e := min e1 e2
    round (m1 * 2 ^ (e1 - e).toNat + m2 * 2 ^ (e2 - e).toNat) e
  | _, _ => .other

/-- The negation `-a`, which is exact. -/
def Double.neg : Double → Double
  | .finite m e => .finite (-m) e
  | .other => .other

/-- The product `a * b`: the exact product, rounded. -/
def Double.mul : Double → Double → Double
  | .finite m1 e1, .finite m2 e2 => round (m1 * m2) (e1 + e2)
  | _, _ => .other

/-- The quotient `a / b`: the exact quotient, rounded.  The integer quotient is
taken with more than 64 bits and a last bit that records a non-zero remainder,
which rounds as the exact quotient does.  Division by zero is `other`. -/
def Double.div : Double → Double → Double
  | .finite m1 e1, .finite m2 e2 =>
    if m2 = 0 then .other
    else
      let k := bitLength m2.natAbs + 64
      let num := m1.natAbs <<< k
      let q := num / m2.natAbs
      let sticky := if num % m2.natAbs = 0 then 0 else 1
      round (m1.sign * m2.sign * ((2 * q + sticky : Nat) : Int)) (e1 - e2 - k - 1)
  | _, _ => .other

instance : Add Double := ⟨Double.add⟩

instance : Neg Double := ⟨Double.neg⟩

instance : Sub Double := ⟨fun a b => Double.add a (Double.neg b)⟩

instance : Mul Double := ⟨Double.mul⟩

instance : Div Double := ⟨Double.div⟩

/-- An integer literal denotes the nearest binary64 value. -/
instance (n : Nat) : OfNat Double n := ⟨Double.round n 0⟩

/-- The constant `Math.PI`, `0x1.921fb54442d18p+1`. -/
def Double.PI : Double := .finite 884279719003555 (-48)

/-- The function `Math.sin` at the two half angles that the quarter turns pass
to it, `Math.PI / 4` and `-Math.PI / 4`: the binary64 values nearest to the exact
sines, `0.7071067811865475` and its negative.  Other arguments are not
tabulated. -/
def Double.sin (x : Double) : Double :=
  if x = .finite 884279719003555 (-50) then .finite 1592262918131443 (-51)
  else if x = .finite (-884279719003555) (-50) then .finite (-1592262918131443) (-51)
  else .other

/-- The function `Math.cos` at the same two arguments: the binary64 value
nearest to the exact cosine, `0.7071067811865476`.  Other arguments are not
tabulated. -/
def Double.cos (x : Double) : Double :=
  if x = .finite 884279719003555 (-50) ∨ x = .finite (-884279719003555) (-50) then
    .finite 6369051672525773 (-53)
  else .other

/-- A `THREE.Quaternion`. -/
structure Quaternion (α : Type) where
  x : α
  y : α
  z : α
  w : α

/-- Modelled from the spec: `Vector3.applyQuaternion(q)` of three.js, which is
not in the repository and through which the library computes the rotation that
the spec describes: the product `q v q⁻¹`, written out operation by operation
in the order the library evaluates it. -/
def Vector3.applyQuaternion {α : Type} [Add α] [Sub α] [Mul α] [Neg α]
    (v : Vector3 α) (q : Quaternion α) : Vector3 α :=
  let ix := q.w * v.x + q.y * v.z - q.z * v.y
  let iy := q.w * v.y + q.z * v.x - q.x * v.z
  let iz := q.w * v.z + q.x * v.y - q.y * v.x
  let iw := (-q.x) * v.x - q.y * v.y - q.z * v.z
  { x := ix * q.w + iw * (-q.x) + iy * (-q.z) - iz * (-q.y)
    y := iy * q.w + iw * (-q.y) + iz * (-q.x) - ix * (-q.z)
    z := iz * q.w + iw * (-q.z) + ix * (-q.y) - iy * (-q.x) }

/-- Modelled from the spec: `Quaternion.setFromAxisAngle(axis, angle)` of
three.js on JavaScript numbers: the unit quaternion of the rotation by `angle`
about the unit vector `axis`, `(axis sin (angle / 2), cos (angle / 2))`. -/
def setFromAxisAngleDouble (axis : Vector3 Double) (angle : Double) : Quaternion Double :=
  let halfAngle := angle / 2
  let s := Double.sin halfAngle
  { x := axis.x * s, y := axis.y * s, z := axis.z * s, w := Double.cos halfAngle }

/-- Lines 26-30 on JavaScript numbers, with `applyAxisAngle` computed as
three.js does, through the quaternion of the axis and the angle. -/
def rotateAxisDouble (x y z theta : Double) : Vector3 Double → Vector3 Double :=
  fun vec => vec.applyQuaternion (setFromAxisAngleDouble { x := x, y := y, z := z } theta)

/-- Line 33 on JavaScript numbers: `axisVector[axisType.top]`. -/
def axisVectorTopDouble : Vector3 Double → Vector3 Double :=
  rotateAxisDouble 1 0 0 (Double.PI / 2)

/-! ## Auxiliary facts -/

/-- Flattening by repeated append, as `reduce((all, some) => [...all, ...some], init)`
does, is concatenation in order. -/
theorem foldl_append_flatten {β : Type} (l : List (List β)) (init : List β) :
    l.foldl (fun all more => all ++ more) init = init ++ l.flatten := by
  induction l generalizing init with
  | nil => simp
  | cons a l ih => simp [ih, List.append_assoc]

/-- When the lookup succeeds, calling it on every vertex cannot fail. -/
theorem mapM_applyAxisVector {α : Type} [Field α] [MathFns α] (type : String)
    (f : Vector3 α → Vector3 α) (h : axisVector type = some f) (vs : List (Vector3 α)) :
    vs.mapM (applyAxisVector type) = Except.ok (vs.map f) := by
  induction vs with
  | nil => rfl
  | cons v vs ih =>
    rw [List.mapM_cons, ih]
    simp only [applyAxisVector, h]
    rfl

/-- The geometry of an axis whose orientation is one of the defined keys. -/
theorem createAxisGeometry_of_some {α : Type} [Field α] [MathFns α] (spec : AxisSpec α)
    (f : Vector3 α → Vector3 α) (h : axisVector spec.type = some f) :
    createAxisGeometry spec = Except.ok
      { vertices :=
          (((spec.scale.ticks spec.tickCount).map (tickVertices spec.tickHeight)).flatten).map f } := by
  unfold createAxisGeometry
  simp only [foldl_append_flatten, List.nil_append]
  rw [mapM_applyAxisVector spec.type f h]
  rfl

/-- Every tick contributes three vertices. -/
theorem length_flatten_tickVertices {α : Type} [Field α] (tickHeight : α) (ticks : List α) :
    ((ticks.map (tickVertices tickHeight)).flatten).length = 3 * ticks.length := by
  induction ticks with
  | nil => rfl
  | cons t ts ih =>
    simp only [List.map_cons, List.flatten_cons, List.length_append, ih, List.length_cons]
    simp [tickVertices]
    omega

/-- The vertices of the tick number `i` sit at the positions `3 i`, `3 i + 1`
and `3 i + 2` of the flattened sequence. -/
theorem getElem?_flatten_tickVertices {α : Type} [Field α] (tickHeight : α) (ticks : List α)
    (i : Nat) (t : α) (h : ticks[i]? = some t) :
    ((ticks.map (tickVertices tickHeight)).flatten)[3 * i]? = some { x := t, y := 0, z := 1 } ∧
    ((ticks.map (tickVertices tickHeight)).flatten)[3 * i + 1]? =
      some { x := t, y := tickHeight, z := 1 } ∧
    ((ticks.map (tickVertices tickHeight)).flatten)[3 * i + 2]? =
      some { x := t, y := 0, z := 1 } := by
  induction ticks generalizing i with
  | nil => simp at h
  | cons a ts ih =>
    cases i with
    | zero =>
      simp only [List.getElem?_cons_zero, Option.some.injEq] at h
      subst h
      simp [tickVertices]
    | succ k =>
      simp only [List.getElem?_cons_succ] at h
      have e0 : 3 * (k + 1) = (3 * k) + 1 + 1 + 1 := by ring
      have e1 : 3 * (k + 1) + 1 = (3 * k + 1) + 1 + 1 + 1 := by ring
      have e2 : 3 * (k + 1) + 2 = (3 * k + 2) + 1 + 1 + 1 := by ring
      obtain ⟨h0, h1, h2⟩ := ih k h
      refine ⟨?_, ?_, ?_⟩
      · rw [e0]; simpa [tickVertices] using h0
      · rw [e1]; simpa [tickVertices] using h1
      · rw [e2]; simpa [tickVertices] using h2

/-- The four defined orientations all have a transform. -/
theorem axisVector_isSome {α : Type} [Field α] [MathFns α] (type : String)
    (h : type ∈ [axisType.top, axisType.right, axisType.bottom, axisType.left]) :
    ∃ f : Vector3 α → Vector3 α, axisVector type = some f := by
  simp only [List.mem_cons, List.mem_singleton, List.not_mem_nil, or_false] at h
  unfold axisVector
  rcases h with h | h | h | h <;> subst h <;> simp [axisType.top, axisType.right,
    axisType.bottom, axisType.left]

/-- The bottom orientation is the identity. -/
theorem axisVector_bottom {α : Type} [Field α] [MathFns α] :
    (axisVector axisType.bottom : Option (Vector3 α → Vector3 α)) = some (fun x => x) := by
  simp [axisVector, axisType.top, axisType.bottom]


/-! ### Rotations by quarter turns -/

/-- The cosine of the angle of the right orientation. -/
theorem cos_right_angle : Real.cos (-1 * Real.pi * 3 / 2) = 0 := by
  have e : -1 * Real.pi * 3 / 2 = Real.pi / 2 - 2 * Real.pi := by ring
  rw [e, Real.cos_sub_two_pi, Real.cos_pi_div_two]

/-- The sine of the angle of the right orientation. -/
theorem sin_right_angle : Real.sin (-1 * Real.pi * 3 / 2) = 1 := by
  have e : -1 * Real.pi * 3 / 2 = Real.pi / 2 - 2 * Real.pi := by ring
  rw [e, Real.sin_sub_two_pi, Real.sin_pi_div_two]

/-- The rotation over the reals, with the real sine and cosine. -/
theorem rotateAxis_real (x y z theta : ℝ) (v : Vector3 ℝ) :
    rotateAxis x y z theta v =
      { x := v.x * Real.cos theta + (y * v.z - z * v.y) * Real.sin theta +
          x * (x * v.x + y * v.y + z * v.z) * (1 - Real.cos theta)
        y := v.y * Real.cos theta + (z * v.x - x * v.z) * Real.sin theta +
          y * (x * v.x + y * v.y + z * v.z) * (1 - Real.cos theta)
        z := v.z * Real.cos theta + (x * v.y - y * v.x) * Real.sin theta +
          z * (x * v.x + y * v.y + z * v.z) * (1 - Real.cos theta) } := rfl

/-- A quarter turn about the Z axis. -/
theorem rotateAxis_left (v : Vector3 ℝ) :
    rotateAxis 0 0 1 (MathFns.PI / 2) v = { x := -v.y, y := v.x, z := v.z } := by
  rw [rotateAxis_real]
  show _ = _
  simp only [show (MathFns.PI : ℝ) = Real.pi from rfl, Real.cos_pi_div_two, Real.sin_pi_div_two]
  congr 1 <;> ring

/-- Three quarter turns backwards about the Z axis are a quarter turn. -/
theorem rotateAxis_right (v : Vector3 ℝ) :
    rotateAxis 0 0 1 (-1 * MathFns.PI * 3 / 2) v = { x := -v.y, y := v.x, z := v.z } := by
  rw [rotateAxis_real]
  simp only [show (MathFns.PI : ℝ) = Real.pi from rfl, cos_right_angle, sin_right_angle]
  congr 1 <;> ring

/-- A quarter turn about the X axis. -/
theorem rotateAxis_top (v : Vector3 ℝ) :
    rotateAxis 1 0 0 (MathFns.PI / 2) v = { x := v.x, y := -v.z, z := v.y } := by
  rw [rotateAxis_real]
  simp only [show (MathFns.PI : ℝ) = Real.pi from rfl, Real.cos_pi_div_two, Real.sin_pi_div_two]
  congr 1 <;> ring

/-- A quarter turn backwards about the X axis. -/
theorem rotateAxis_top_inverse (v : Vector3 ℝ) :
    rotateAxis 1 0 0 (-MathFns.PI / 2) v = { x := v.x, y := v.z, z := -v.y } := by
  rw [rotateAxis_real]
  have e : -Real.pi / 2 = -(Real.pi / 2) := by ring
  simp only [show (MathFns.PI : ℝ) = Real.pi from rfl, e, Real.cos_neg, Real.sin_neg,
    Real.cos_pi_div_two, Real.sin_pi_div_two]
  congr 1 <;> ring

/-- The modelled arithmetic on familiar values: the literals `0.1`, `0.2`, `0.3`
are `0x1.999999999999ap-4`, `0x1.999999999999ap-3`, `0x1.3333333333333p-2`, and
`0.1 + 0.2` is `0.30000000000000004`, not `0.3`. -/
theorem double_arithmetic_examples :
    (1 : Double) / 10 = Double.finite 3602879701896397 (-55) ∧
    (2 : Double) / 10 = Double.finite 3602879701896397 (-54) ∧
    (3 : Double) / 10 = Double.finite 5404319552844595 (-54) ∧
    (1 : Double) / 10 + 2 / 10 = Double.finite 1351079888211149 (-52) ∧
    Double.PI / 2 / 2 = Double.finite 884279719003555 (-50) := by
  decide

/-- In exact arithmetic the quaternion product that three.js evaluates is the
rotation `Vector3.applyAxisAngle` about a unit axis. -/
theorem applyQuaternion_eq_applyAxisAngle (v axis : Vector3 ℝ) (theta : ℝ)
    (h : axis.x ^ 2 + axis.y ^ 2 + axis.z ^ 2 = 1) :
    v.applyQuaternion
        { x := axis.x * Real.sin (theta / 2), y := axis.y * Real.sin (theta / 2),
          z := axis.z * Real.sin (theta / 2), w := Real.cos (theta / 2) } =
      v.applyAxisAngle axis theta := by
  have hs : Real.sin theta = 2 * Real.sin (theta / 2) * Real.cos (theta / 2) := by
    rw [← Real.sin_two_mul]
    congr 1
    ring
  have hc : Real.cos theta = 2 * Real.cos (theta / 2) ^ 2 - 1 := by
    rw [← Real.cos_two_mul]
    congr 1
    ring
  have hsc : Real.sin (theta / 2) ^ 2 + Real.cos (theta / 2) ^ 2 = 1 :=
    Real.sin_sq_add_cos_sq (theta / 2)
  show Vector3.applyQuaternion v _ = Vector3.mk _ _ _
  simp only [Vector3.applyQuaternion, Vector3.mk.injEq,
    show (MathFns.sin theta : ℝ) = Real.sin theta from rfl,
    show (MathFns.cos theta : ℝ) = Real.cos theta from rfl, hs, hc]
  refine ⟨?_, ?_, ?_⟩
  · linear_combination
      (-(Real.sin (theta / 2) ^ 2) * v.x) * h +
      (2 * axis.x * (axis.x * v.x + axis.y * v.y + axis.z * v.z) - v.x) * hsc
  · linear_combination
      (-(Real.sin (theta / 2) ^ 2) * v.y) * h +
      (2 * axis.y * (axis.x * v.x + axis.y * v.y + axis.z * v.z) - v.y) * hsc
  · linear_combination
      (-(Real.sin (theta / 2) ^ 2) * v.z) * h +
      (2 * axis.z * (axis.x * v.x + axis.y * v.y + axis.z * v.z) - v.z) * hsc

/-! ### The scene -/

/-- The transform of the left orientation. -/
theorem axisVector_left {α : Type} [Field α] [MathFns α] :
    (axisVector axisType.left : Option (Vector3 α → Vector3 α)) =
      some (rotateAxis 0 0 1 (MathFns.PI / 2)) := by
  simp [axisVector, axisType.top, axisType.bottom, axisType.right, axisType.left]

/-- The transform of the right orientation. -/
theorem axisVector_right {α : Type} [Field α] [MathFns α] :
    (axisVector axisType.right : Option (Vector3 α → Vector3 α)) =
      some (rotateAxis 0 0 1 (-1 * MathFns.PI * 3 / 2)) := by
  simp [axisVector, axisType.top, axisType.bottom, axisType.right]

/-- The transform of the top orientation. -/
theorem axisVector_top {α : Type} [Field α] [MathFns α] :
    (axisVector axisType.top : Option (Vector3 α → Vector3 α)) =
      some (rotateAxis 1 0 0 (MathFns.PI / 2)) := by
  simp [axisVector]

/-- Adding objects one by one appends them in order. -/
theorem foldl_add {α : Type} (objects : List (Object3D α)) (scene : Scene α) :
    objects.foldl (fun scene mesh => scene.add mesh) scene =
      { children := scene.children ++ objects } := by
  induction objects generalizing scene with
  | nil => simp
  | cons o os ih =>
    rw [List.foldl_cons, ih]
    simp [Scene.add]

/-- The scene that `initChart` builds, written out. -/
theorem initChart_eq {α : Type} [Field α] [MathFns α] (window : Window α)
    (xTicks yTicks : Int → List α) (circle : Geometry α) (data : List (α × α)) :
    initChart window xTicks yTicks circle data = Except.ok
      { children :=
          Object3D.line
            (Geometry.translate
              { vertices := (((yTicks 100).map (tickVertices 1)).flatten).map
                  (rotateAxis 0 0 1 (MathFns.PI / 2)) } 0 1 0) ::
          Object3D.line { vertices := ((xTicks 100).map (tickVertices 1)).flatten } ::
          data.map (fun p => Object3D.mesh
            (circle.translate ((xScale xTicks).forward p.1)
              ((yScale window yTicks).invert p.2) 0)) } := by
  simp only [initChart]
  rw [createAxisGeometry_of_some _ _ axisVector_bottom,
    createAxisGeometry_of_some _ _ axisVector_left]
  simp only [foldl_add, List.map_map, List.map_id_fun', id_eq]
  rfl

/-! ### The scales -/

/-- The X scale maps every value to itself. -/
theorem xScale_forward (ticks : Int → List ℝ) (x : ℝ) : (xScale ticks).forward x = x := by
  simp only [xScale, scaleLinear, WIDTH]
  ring

/-- The inverse of the Y scale, as a power of the height. -/
theorem yScale_invert (window : Window ℝ) (ticks : Int → List ℝ) (h : 0 < HEIGHT window)
    (y : ℝ) : (yScale window ticks).invert y = HEIGHT window ^ ((y - 1) / 299) := by
  show (2 : ℝ) ^ (Real.logb 2 1 + (Real.logb 2 (HEIGHT window) - Real.logb 2 1) *
    ((y - 1) / (300 - 1))) = _
  rw [Real.logb_one, zero_add, sub_zero, Real.rpow_mul (by norm_num),
    Real.rpow_logb (by norm_num) (by norm_num) h]
  norm_num

/-- The forward Y scale, written with real logarithms. -/
theorem yScale_forward (window : Window ℝ) (ticks : Int → List ℝ) (v : ℝ) :
    (yScale window ticks).forward v =
      1 + 299 * (Real.logb 2 v / Real.logb 2 (HEIGHT window)) := by
  show (1 : ℝ) + (300 - 1) * ((Real.logb 2 v - Real.logb 2 1) /
    (Real.logb 2 (HEIGHT window) - Real.logb 2 1)) = _
  rw [Real.logb_one, sub_zero, sub_zero]
  norm_num

/-! ## The claims -/

/-- C1: for each of the four orientations, every tick height and every scale,
`createAxisGeometry` with `tickCount = k`, `k ≥ 1`, returns a geometry whose
vertex sequence has exactly three times as many entries as `scale.ticks(k)`
returned ticks. -/
theorem createAxisGeometry_length {α : Type} [Field α] [MathFns α] (type : String)
    (htype : type ∈ [axisType.top, axisType.right, axisType.bottom, axisType.left])
    (k : Int) (_hk : 1 ≤ k) (tickHeight : α) (scale : Scale α) :
    ∃ g : Geometry α,
      createAxisGeometry
        { type := type, tickCount := k, tickHeight := tickHeight, scale := scale } = Except.ok g ∧
      g.vertices.length = 3 * (scale.ticks k).length := by
  obtain ⟨f, hf⟩ := axisVector_isSome (α := α) type htype
  refine ⟨_, createAxisGeometry_of_some _ f hf, ?_⟩
  simp only [List.length_map]
  exact length_flatten_tickVertices tickHeight (scale.ticks k)

/-- C1, at the left orientation with seven requested ticks on the real line. -/
theorem createAxisGeometry_length_witness :
    ∃ g : Geometry ℝ,
      createAxisGeometry
        { type := axisType.left, tickCount := 7, tickHeight := 1,
          scale := scaleLinear (0 : ℝ) 100 0 100 (fun _ => [0, 20, 40, 60, 80, 100]) } =
        Except.ok g ∧
      g.vertices.length =
        3 * ((scaleLinear (0 : ℝ) 100 0 100 (fun _ => [0, 20, 40, 60, 80, 100])).ticks 7).length :=
  createAxisGeometry_length axisType.left (by simp) 7 (by decide) 1 _

/-- C2: with the bottom orientation, for every tick list `t_0 .. t_{n-1}` returned
by `scale.ticks` and every tick height `h`, `createAxisGeometry` returns the
sequence of `3 n` vertices whose entries `3 i`, `3 i + 1`, `3 i + 2` are
`(t_i, 0, 1)`, `(t_i, h, 1)`, `(t_i, 0, 1)`, in the order of the ticks. -/
theorem createAxisGeometry_bottom {α : Type} [Field α] [MathFns α]
    (tickCount : Int) (tickHeight : α) (scale : Scale α) :
    ∃ g : Geometry α,
      createAxisGeometry
        { type := axisType.bottom, tickCount := tickCount, tickHeight := tickHeight,
          scale := scale } = Except.ok g ∧
      g.vertices.length = 3 * (scale.ticks tickCount).length ∧
      ∀ (i : Nat) (t : α), (scale.ticks tickCount)[i]? = some t →
        g.vertices[3 * i]? = some { x := t, y := 0, z := 1 } ∧
        g.vertices[3 * i + 1]? = some { x := t, y := tickHeight, z := 1 } ∧
        g.vertices[3 * i + 2]? = some { x := t, y := 0, z := 1 } := by
  refine ⟨_, createAxisGeometry_of_some _ _ axisVector_bottom, ?_, ?_⟩
  · simp only [List.map_id_fun', id_eq]
    exact length_flatten_tickVertices tickHeight (scale.ticks tickCount)
  · intro i t h
    simp only [List.map_id_fun', id_eq]
    exact getElem?_flatten_tickVertices tickHeight (scale.ticks tickCount) i t h

/-- C5: when `scale.ticks(tickCount)` returns no tick, `createAxisGeometry`
returns a geometry with an empty vertex sequence and raises no error, for every
tick height and every value of `type`, defined key or not. -/
theorem createAxisGeometry_no_ticks {α : Type} [Field α] [MathFns α] (spec : AxisSpec α)
    (h : spec.scale.ticks spec.tickCount = []) :
    createAxisGeometry spec = Except.ok { vertices := [] } := by
  unfold createAxisGeometry
  rw [h]
  rfl

/-- C5, at `tickCount = 0` with a key that `axisVector` does not define. -/
theorem createAxisGeometry_no_ticks_witness :
    (scaleLinear (0 : ℝ) 100 0 100 (fun k => if k ≤ 0 then [] else [0, 50, 100])).ticks 0 = [] ∧
    createAxisGeometry
      { type := "diagonal", tickCount := 0, tickHeight := (1 : ℝ),
        scale := scaleLinear 0 100 0 100 (fun k => if k ≤ 0 then [] else [0, 50, 100]) } =
      Except.ok { vertices := [] } :=
  ⟨rfl, createAxisGeometry_no_ticks _ rfl⟩

/-- C4: on every vertex the right orientation (rotation by `-3π/2` about the Z
axis) and the left orientation (rotation by `π/2` about the Z axis) give the
same vertex, namely `(x, y, z) ↦ (-y, x, z)`. -/
theorem axisVector_right_eq_left (v : Vector3 ℝ) :
    ∃ right left : Vector3 ℝ → Vector3 ℝ,
      axisVector axisType.right = some right ∧
      axisVector axisType.left = some left ∧
      right v = left v ∧
      left v = { x := -v.y, y := v.x, z := v.z } :=
  ⟨_, _, axisVector_right, axisVector_left,
    (rotateAxis_right v).trans (rotateAxis_left v).symm, rotateAxis_left v⟩

/-- C6, as amended: in exact real arithmetic, applying the top orientation to a
vertex and then the rotation by `-π/2` about the X axis,
`rotateAxis(1, 0, 0, -Math.PI / 2)`, returns the original vertex. -/
theorem axisVector_top_roundtrip (v : Vector3 ℝ) :
    ∃ top : Vector3 ℝ → Vector3 ℝ,
      axisVector axisType.top = some top ∧
      rotateAxis 1 0 0 (-MathFns.PI / 2) (top v) = v := by
  refine ⟨_, axisVector_top, ?_⟩
  rw [rotateAxis_top, rotateAxis_top_inverse]
  simp

/-- C7: for the Y scale of the program (base 2, domain `[1, HEIGHT]`, range
`[1, 300]`), whenever `HEIGHT > 0`, every `v` with `1 ≤ v ≤ HEIGHT` satisfies
`yScale.forward(yScale.invert(v)) = v` over the reals. -/
theorem yScale_roundtrip (window : Window ℝ) (ticks : Int → List ℝ)
    (hpos : 0 < HEIGHT window) (v : ℝ) (h1 : 1 ≤ v) (h2 : v ≤ HEIGHT window) :
    (yScale window ticks).forward ((yScale window ticks).invert v) = v := by
  rw [yScale_forward]
  have hinv : (yScale window ticks).invert v =
      2 ^ (Real.logb 2 (HEIGHT window) * ((v - 1) / 299)) := by
    show (2 : ℝ) ^ (Real.logb 2 1 + (Real.logb 2 (HEIGHT window) - Real.logb 2 1) *
      ((v - 1) / (300 - 1))) = _
    rw [Real.logb_one, zero_add, sub_zero]
    norm_num
  rw [hinv, Real.logb_rpow (by norm_num) (by norm_num)]
  by_cases hL : Real.logb 2 (HEIGHT window) = 0
  · have hH : HEIGHT window = 1 := by
      rcases Real.logb_eq_zero.mp hL with h | h | h | h | h | h <;> linarith
    have hv : v = 1 := le_antisymm (hH ▸ h2) h1
    rw [hL, hv]
    norm_num
  · field_simp
    ring

/-- C7, for a window of 800 by 600 (`HEIGHT = 75`) at `v = 2`. -/
theorem yScale_roundtrip_witness :
    0 < HEIGHT (⟨600, 800⟩ : Window ℝ) ∧
    (1 : ℝ) ≤ 2 ∧
    (2 : ℝ) ≤ HEIGHT (⟨600, 800⟩ : Window ℝ) ∧
    (yScale (⟨600, 800⟩ : Window ℝ) (fun _ => [])).forward
      ((yScale (⟨600, 800⟩ : Window ℝ) (fun _ => [])).invert 2) = 2 :=
  ⟨by norm_num [HEIGHT, RATIO], by norm_num, by norm_num [HEIGHT, RATIO],
    yScale_roundtrip _ _ (by norm_num [HEIGHT, RATIO]) 2 (by norm_num)
      (by norm_num [HEIGHT, RATIO])⟩

/-- C3: for every data sequence, the scene holds, after the two axis lines, one
mesh per data pair in data order, and the mesh number `i` is the disc translated
by `(xScale.forward(x_i), yScale.invert(y_i), 0)`, with `xScale` the linear scale
of domain `[0, 100]` and range `[0, WIDTH]` and `yScale` the base 2 log scale of
domain `[1, HEIGHT]` and range `[1, 300]`. -/
theorem initChart_points {α : Type} [Field α] [MathFns α] (window : Window α)
    (xTicks yTicks : Int → List α) (circle : Geometry α) (data : List (α × α)) :
    ∃ (yLine xLine : Object3D α) (meshes : List (Object3D α)),
      initChart window xTicks yTicks circle data =
        Except.ok { children := yLine :: xLine :: meshes } ∧
      meshes.length = data.length ∧
      ∀ (i : Nat) (x y : α), data[i]? = some (x, y) →
        meshes[i]? = some (Object3D.mesh
          (circle.translate
            ((scaleLinear 0 100 0 WIDTH xTicks).forward x)
            ((scaleLog 2 1 (HEIGHT window) 1 300 yTicks).invert y) 0)) := by
  refine ⟨_, _, _, initChart_eq window xTicks yTicks circle data, ?_, ?_⟩
  · simp
  · intro i x y h
    rw [List.getElem?_map, h]
    rfl

/-- C8: for every data sequence of length `N` the scene built by `initChart`
holds exactly `2 + N` objects: the line of the Y axis, then the line of the X
axis, then `N` meshes; for empty data these are the two lines alone. -/
theorem initChart_children {α : Type} [Field α] [MathFns α] (window : Window α)
    (xTicks yTicks : Int → List α) (circle : Geometry α) (data : List (α × α)) :
    ∃ (scene : Scene α) (yAxisGeometry xAxisGeometry : Geometry α)
        (meshes : List (Object3D α)),
      initChart window xTicks yTicks circle data = Except.ok scene ∧
      (createAxisGeometry
        { type := axisType.left, tickCount := 100, tickHeight := 1,
          scale := yScale window yTicks }).map (fun g => g.translate 0 1 0) =
        Except.ok yAxisGeometry ∧
      createAxisGeometry
        { type := axisType.bottom, tickCount := 100, tickHeight := 1,
          scale := xScale xTicks } = Except.ok xAxisGeometry ∧
      scene.children =
        Object3D.line yAxisGeometry :: Object3D.line xAxisGeometry :: meshes ∧
      meshes.length = data.length ∧
      (∀ m ∈ meshes, ∃ g, m = Object3D.mesh g) ∧
      scene.children.length = 2 + data.length ∧
      (data = [] → scene.children =
        [Object3D.line yAxisGeometry, Object3D.line xAxisGeometry]) := by
  refine ⟨_, _, _, _, initChart_eq window xTicks yTicks circle data, ?_, ?_, rfl, ?_, ?_, ?_, ?_⟩
  · rw [createAxisGeometry_of_some _ _ axisVector_left]
    rfl
  · rw [createAxisGeometry_of_some _ _ axisVector_bottom]
    simp only [List.map_id_fun', id_eq]
    rfl
  · simp
  · intro m hm
    obtain ⟨p, _, rfl⟩ := List.mem_map.mp hm
    exact ⟨_, rfl⟩
  · simp
    omega
  · rintro rfl
    rfl

/-- C9: the geometry of the Y axis built in `initChart` (left orientation, tick
height 1, translated by `(0, 1, 0)` after the rotation) is the geometry of the
first line of the scene, and for the tick number `i` of `yScale.ticks(100)`, of
value `t_i`, its vertices `3 i`, `3 i + 1`, `3 i + 2` are `(0, t_i + 1, 1)`,
`(-1, t_i + 1, 1)`, `(0, t_i + 1, 1)` in exact real arithmetic. -/
theorem initChart_yAxisGeometry (window : Window ℝ) (xTicks yTicks : Int → List ℝ)
    (circle : Geometry ℝ) (data : List (ℝ × ℝ)) :
    ∃ (yAxisGeometry : Geometry ℝ) (rest : List (Object3D ℝ)),
      initChart window xTicks yTicks circle data =
        Except.ok { children := Object3D.line yAxisGeometry :: rest } ∧
      (createAxisGeometry
        { type := axisType.left, tickCount := 100, tickHeight := 1,
          scale := yScale window yTicks }).map (fun g => g.translate 0 1 0) =
        Except.ok yAxisGeometry ∧
      yAxisGeometry.vertices.length = 3 * ((yScale window yTicks).ticks 100).length ∧
      ∀ (i : Nat) (t : ℝ), ((yScale window yTicks).ticks 100)[i]? = some t →
        yAxisGeometry.vertices[3 * i]? = some { x := 0, y := t + 1, z := 1 } ∧
        yAxisGeometry.vertices[3 * i + 1]? = some { x := -1, y := t + 1, z := 1 } ∧
        yAxisGeometry.vertices[3 * i + 2]? = some { x := 0, y := t + 1, z := 1 } := by
  refine ⟨_, _, initChart_eq window xTicks yTicks circle data, ?_, ?_, ?_⟩
  · rw [createAxisGeometry_of_some _ _ axisVector_left]
    rfl
  · simp only [Geometry.translate, List.length_map]
    exact length_flatten_tickVertices 1 (yTicks 100)
  · intro i t h
    obtain ⟨h0, h1, h2⟩ := getElem?_flatten_tickVertices (1 : ℝ) (yTicks 100) i t h
    simp only [Geometry.translate, List.getElem?_map, h0, h1, h2, Option.map_some',
      rotateAxis_left]
    norm_num

/-- C10: with the scales as configured and `HEIGHT > 0`, the X scale returns
every `x` unchanged, the inverse of the Y scale is `y ↦ HEIGHT ^ ((y - 1) / 299)`,
strictly positive for every real `y`, equal to 1 at `y = 1` and to `HEIGHT` at
`y = 300`, and the mesh of every data pair `(x, y)` is the disc translated by
`(x, HEIGHT ^ ((y - 1) / 299), 0)`. -/
theorem initChart_positions (window : Window ℝ) (hpos : 0 < HEIGHT window)
    (xTicks yTicks : Int → List ℝ) (circle : Geometry ℝ) (data : List (ℝ × ℝ)) :
    (∀ x : ℝ, (xScale xTicks).forward x = x) ∧
    (∀ y : ℝ, (yScale window yTicks).invert y = HEIGHT window ^ ((y - 1) / 299) ∧
      0 < (yScale window yTicks).invert y) ∧
    (yScale window yTicks).invert 1 = 1 ∧
    (yScale window yTicks).invert 300 = HEIGHT window ∧
    ∃ (yLine xLine : Object3D ℝ) (meshes : List (Object3D ℝ)),
      initChart window xTicks yTicks circle data =
        Except.ok { children := yLine :: xLine :: meshes } ∧
      meshes.length = data.length ∧
      ∀ (i : Nat) (x y : ℝ), data[i]? = some (x, y) →
        meshes[i]? = some (Object3D.mesh
          (circle.translate x (HEIGHT window ^ ((y - 1) / 299)) 0)) := by
  refine ⟨xScale_forward xTicks, fun y => ⟨yScale_invert window yTicks hpos y, ?_⟩, ?_, ?_,
    _, _, _, initChart_eq window xTicks yTicks circle data, ?_, ?_⟩
  · rw [yScale_invert window yTicks hpos]
    exact Real.rpow_pos_of_pos hpos _
  · rw [yScale_invert window yTicks hpos]
    norm_num
  · rw [yScale_invert window yTicks hpos]
    norm_num
  · simp
  · intro i x y h
    rw [List.getElem?_map, h]
    simp only [Option.map_some', xScale_forward, yScale_invert window yTicks hpos]

/-- C10, for a window of 800 by 600 (`HEIGHT = 75`) and the data `[[10, 150]]`. -/
theorem initChart_positions_witness :
    0 < HEIGHT (⟨600, 800⟩ : Window ℝ) ∧
    (∀ x : ℝ, (xScale (fun _ => ([0, 50, 100] : List ℝ))).forward x = x) ∧
    (∀ y : ℝ,
      (yScale (⟨600, 800⟩ : Window ℝ) (fun _ => [1, 2, 4])).invert y =
        HEIGHT (⟨600, 800⟩ : Window ℝ) ^ ((y - 1) / 299) ∧
      0 < (yScale (⟨600, 800⟩ : Window ℝ) (fun _ => [1, 2, 4])).invert y) ∧
    (yScale (⟨600, 800⟩ : Window ℝ) (fun _ => [1, 2, 4])).invert 1 = 1 ∧
    (yScale (⟨600, 800⟩ : Window ℝ) (fun _ => [1, 2, 4])).invert 300 =
      HEIGHT (⟨600, 800⟩ : Window ℝ) ∧
    ∃ (yLine xLine : Object3D ℝ) (meshes : List (Object3D ℝ)),
      initChart (⟨600, 800⟩ : Window ℝ) (fun _ => [0, 50, 100]) (fun _ => [1, 2, 4])
          ⟨[⟨0, 0, 0⟩]⟩ [(10, 150)] =
        Except.ok { children := yLine :: xLine :: meshes } ∧
      meshes.length = [((10 : ℝ), (150 : ℝ))].length ∧
      ∀ (i : Nat) (x y : ℝ), [((10 : ℝ), (150 : ℝ))][i]? = some (x, y) →
        meshes[i]? = some (Object3D.mesh
          (Geometry.translate (⟨[⟨0, 0, 0⟩]⟩ : Geometry ℝ) x
            (HEIGHT (⟨600, 800⟩ : Window ℝ) ^ ((y - 1) / 299)) 0)) :=
  ⟨by norm_num [HEIGHT, RATIO],
    initChart_positions _ (by norm_num [HEIGHT, RATIO]) _ _ _ _⟩

set_option maxRecDepth 100000

/-- C6, counterexample: on JavaScript numbers the round trip is not exact.  The
top orientation sends the vertex `(0.1, 0.2, 0.3)` to
`(0.1, -0.29999999999999993, 0.20000000000000004)`, and
`rotateAxis(1, 0, 0, -Math.PI / 2)` sends that to
`(0.1, 0.19999999999999998, 0.29999999999999993)`, which is not the original
vertex. -/
theorem double_top_roundtrip_not_exact :
    axisVectorTopDouble { x := 1 / 10, y := 2 / 10, z := 3 / 10 } =
      { x := Double.finite 3602879701896397 (-55),
        y := Double.finite (-2702159776422297) (-53),
        z := Double.finite 7205759403792795 (-55) } ∧
    rotateAxisDouble 1 0 0 (-Double.PI / 2)
        (axisVectorTopDouble { x := 1 / 10, y := 2 / 10, z := 3 / 10 }) =
      { x := Double.finite 3602879701896397 (-55),
        y := Double.finite 7205759403792793 (-55),
        z := Double.finite 2702159776422297 (-53) } ∧
    rotateAxisDouble 1 0 0 (-Double.PI / 2)
        (axisVectorTopDouble { x := 1 / 10, y := 2 / 10, z := 3 / 10 }) ≠
      { x := 1 / 10, y := 2 / 10, z := 3 / 10 } := by
  decide

end InitChart
